import Mathlib

/-!
Shallow embedding of the authentication / session-lifecycle controller of the
repository (the user controller: `generateTokens`, `registerUser`, `loginUser`,
`logoutUser`, `refreshAcessToken`, `changeCurrentPassword`).  Request-body
fields are `Option String` (`none` models a JavaScript `undefined` field);
database state is passed explicitly; a thrown `ApiError(status, message)` is
`Err.api status message`; an error thrown by the `jsonwebtoken` library on a
bad token is `Err.jwtInvalid`; a JavaScript runtime `TypeError` (e.g. calling
a method on `undefined`) is `Err.jsTypeError`.
-/

/-- Modelled from the spec: the Credential Store stores the password "only as a
one-way hash, never in plaintext" (the hashing pre-save hook of the user model
is not among the provided sources).  The hash is symbolic: `PasswordHash.bcrypt
p` is the hash of plaintext `p`; distinct plaintexts give distinct hashes. -/
inductive PasswordHash where
  | bcrypt (plain : String)
deriving DecidableEq, Repr

/-- Modelled from the spec: a signed token is a "signed credential encoding
user identity" and an expiry (the `generateAccessToken` / `generateRefreshToken`
user-model methods are not among the provided sources).  The signature is
symbolic: the `secret` field records which key signed the token. -/
structure SignedToken where
  secret : String
  uid : Nat
  expires : Nat
deriving DecidableEq, Repr

/-- Errors surfaced by the controller operations. -/
inductive Err where
  | api (statusCode : Nat) (message : String)
  | jwtInvalid
  | jsTypeError
deriving DecidableEq, Repr

/-- A user record of the Credential Store, as the auth flow touches it. -/
structure User where
  id : Nat
  username : String
  email : Option String
  password : PasswordHash
  fullname : Option String
  avatar : String
  coverImage : String
  refreshToken : Option SignedToken
deriving DecidableEq, Repr

/-- A user record after `.select("-password -refreshToken")`: the password and
refresh-token fields are structurally absent. -/
structure SanitizedUser where
  id : Nat
  username : String
  email : Option String
  fullname : Option String
  avatar : String
  coverImage : String
deriving DecidableEq, Repr

def sanitize (u : User) : SanitizedUser :=
  { id := u.id, username := u.username, email := u.email,
    fullname := u.fullname, avatar := u.avatar, coverImage := u.coverImage }

/-- The document database: the list of user records plus the next fresh id. -/
structure DB where
  users : List User
  nextId : Nat
deriving DecidableEq, Repr

/-- Model of `User.findById(id)`: first record with the given id. -/
def findById (uid : Nat) (db : DB) : Option User :=
  db.users.find? (fun u => u.id == uid)

/-- Model of `User.findOne({$or: [{username}, {email}]})`: first record matching either
present identifier (an absent identifier matches nothing). -/
def findOne (qUsername qEmail : Option String) (db : DB) : Option User :=
  db.users.find? (fun u =>
    (match qUsername with
     | some s => u.username == s
     | none => false) ||
    (match qEmail with
     | some s => u.email == some s
     | none => false))

/-- Model of `user.save(...)`: write the (mutated) record back, replacing the record(s)
with the same id. -/
def save (u : User) (db : DB) : DB :=
  { db with users := db.users.map (fun v => if v.id == u.id then u else v) }

/-- Cookie options; the controllers always use `{httpOnly: true, secure: true}`. -/
structure CookieOpts where
  httpOnly : Bool
  secure : Bool
deriving DecidableEq, Repr

/-- One `res.cookie(name, value, opts)` call; `value = none` models passing a
JavaScript `undefined` value. -/
structure SetCookie where
  name : String
  value : Option SignedToken
  opts : CookieOpts
deriving DecidableEq, Repr

/-- The `ApiResponse(statusCode, data, message)` envelope. -/
structure ApiResponse (α : Type) where
  statusCode : Nat
  data : α
  message : String
deriving DecidableEq, Repr

/-- An HTTP response as the handlers build it: status, `res.cookie` calls,
`res.clearCookie` calls, JSON body. -/
structure Response (α : Type) where
  status : Nat
  cookies : List SetCookie
  clearedCookies : List (String × CookieOpts)
  body : ApiResponse α
deriving DecidableEq, Repr

def stdOpts : CookieOpts := { httpOnly := true, secure := true }

/-- Runtime configuration (environment secrets) plus the Media Upload
Collaborator, modelled from the spec as a function from a local path to an
optional hosted URL (`none` when the upload fails to yield a URL). -/
structure Env where
  accessTokenSecret : String
  refreshTokenSecret : String
  accessTtl : Nat
  refreshTtl : Nat
  upload : String → Option String

/-- JavaScript `String.prototype.trim()`: strip whitespace from both ends,
computed over the character list. -/
def jsTrim (s : String) : String :=
  ⟨((s.data.dropWhile Char.isWhitespace).reverse.dropWhile Char.isWhitespace).reverse⟩

/-- JavaScript `String.prototype.toLowerCase()`, computed over the character
list. -/
def jsToLower (s : String) : String :=
  ⟨s.data.map Char.toLower⟩

/-- JavaScript truthiness test for an optional string: `undefined` and the
empty string are falsy. -/
def falsy : Option String → Bool
  | none => true
  | some s => s == ""

/-- The register guard `field?.trim() === ""`: true only when the field is
present and blank after trimming (false when the field is absent, because
optional chaining yields `undefined`, which is not `=== ""`). -/
def presentAndBlank : Option String → Bool
  | some s => jsTrim s == ""
  | none => false

/-- Modelled from the spec: `user.generateAccessToken()` mints a signed access
token embedding the user identity and an expiry. -/
def mkAccessToken (env : Env) (now : Nat) (u : User) : SignedToken :=
  { secret := env.accessTokenSecret, uid := u.id, expires := now + env.accessTtl }

/-- Modelled from the spec: `user.generateRefreshToken()` mints a signed
refresh token embedding the user identity and an expiry. -/
def mkRefreshToken (env : Env) (now : Nat) (u : User) : SignedToken :=
  { secret := env.refreshTokenSecret, uid := u.id, expires := now + env.refreshTtl }

structure TokenPair where
  accessToken : SignedToken
  refreshToken : SignedToken
deriving DecidableEq, Repr

/-- Model of `jwt.verify(token, secret)`: throws a library error unless the token was
signed with the given secret and has not expired; on success yields the
decoded claims, of which the controller reads `_id`. -/
def jwtVerify (secret : String) (now : Nat) (tok : SignedToken) : Except Err Nat :=
  if tok.secret == secret && now < tok.expires then .ok tok.uid
  else .error .jwtInvalid

/-- Embedding of `generateTokens(userId)` (source lines 20-31): inside a try/catch, look
the user up, mint both tokens, store the refresh token on the record and save
with `validateBeforeSave: false`.  When no user exists, `user` is `null` and
`user.generateAccessToken()` throws a `TypeError`, which — like every other
failure inside the block — the catch converts into
`ApiError(500, "something went wrong while generating tokens")`. -/
def generateTokens (env : Env) (now : Nat) (userId : Nat) (db : DB) :
    Except Err TokenPair × DB :=
  match findById userId db with
  | none => (.error (.api 500 "something went wrong while generating tokens"), db)
  | some user =>
    let accessToken := mkAccessToken env now user
    let refreshToken := mkRefreshToken env now user
    let db2 := save { user with refreshToken := some refreshToken } db
    (.ok { accessToken := accessToken, refreshToken := refreshToken }, db2)

/-- One entry of a `multer` files array; its `path` may be absent. -/
structure UploadedFile where
  path : Option String
deriving DecidableEq, Repr

/-- Model of `req.files` for register: the `avatar` and `coverImage` field arrays (an
absent field array behaves like an empty one in the controller guards). -/
structure ReqFiles where
  avatar : List UploadedFile
  coverImage : List UploadedFile
deriving DecidableEq, Repr

/-- The register request body plus uploaded files. -/
structure RegisterReq where
  username : Option String
  email : Option String
  password : Option String
  fullname : Option String
  files : Option ReqFiles
deriving Repr

/-- Lines 50-58: `avatarLocalPath`, extracted as `req.files.avatar[0]?.path`
when the avatar array is present and non-empty. -/
def avatarLocalPath (req : RegisterReq) : Option String :=
  match req.files with
  | some fs => match fs.avatar.head? with
    | some f => f.path
    | none => none
  | none => none

/-- Lines 50-58: `coverImageLocalPath`, extracted the same way. -/
def coverImageLocalPath (req : RegisterReq) : Option String :=
  match req.files with
  | some fs => match fs.coverImage.head? with
    | some f => f.path
    | none => none
  | none => none

/-- Modelled from the spec: `uploadOnCloudinary` (the Media Upload
Collaborator wrapper, not among the provided sources) accepts a local file
path and returns a hosted URL, or nothing when the path is absent or the
upload fails. -/
def uploadOnCloudinary (env : Env) : Option String → Option String
  | some p => env.upload p
  | none => none

/-- Embedding of `registerUser` (source lines 33-88).  Steps in source order: the blank
field guard, the duplicate lookup, local-path extraction, the avatar-path
guard, both uploads, the avatar-result guard, `User.create` (username
lowercased, password hashed on save, `coverImage?.url || ""`), the re-fetch
with password/refreshToken excluded, the 201 response carrying
`ApiResponse(200, createdUser, ...)`.  `User.create` with an absent username
or password throws at runtime (`username.toLowerCase()` on `undefined`,
hashing an `undefined` password), modelled as `Err.jsTypeError`. -/
def registerUser (env : Env) (req : RegisterReq) (db : DB) :
    Except Err (Response SanitizedUser) × DB :=
  if [req.username, req.email, req.password, req.fullname].any presentAndBlank then
    (.error (.api 400 "All fields are required"), db)
  else match findOne req.username req.email db with
  | some _ => (.error (.api 409 "User already exists"), db)
  | none =>
    match avatarLocalPath req with
    | none => (.error (.api 400 "Avatar is required"), db)
    | some ap =>
      let avatar := uploadOnCloudinary env (some ap)
      let coverImage := uploadOnCloudinary env (coverImageLocalPath req)
      match avatar with
      | none => (.error (.api 500 "Failed to upload avatar"), db)
      | some avatarUrl =>
        match req.username, req.password with
        | some un, some pw =>
          let newUser : User :=
            { id := db.nextId, username := jsToLower un, email := req.email,
              password := .bcrypt pw, fullname := req.fullname,
              avatar := avatarUrl, coverImage := coverImage.getD "",
              refreshToken := none }
          let db2 : DB := { users := db.users ++ [newUser], nextId := db.nextId + 1 }
          match findById newUser.id db2 with
          | none => (.error (.api 500 "Failed to create user"), db2)
          | some createdUser =>
            (.ok { status := 201, cookies := [], clearedCookies := [],
                   body := { statusCode := 200, data := sanitize createdUser,
                             message := "User created successfully" } }, db2)
        | _, _ => (.error .jsTypeError, db)

/-- The login request body. -/
structure LoginReq where
  username : Option String
  email : Option String
  password : Option String
deriving Repr

/-- The login response body data: sanitized user plus both tokens. -/
structure LoginData where
  user : Option SanitizedUser
  accessToken : Option SignedToken
  refreshToken : Option SignedToken
deriving DecidableEq, Repr

/-- Embedding of `loginUser` (source lines 90-125).  Steps in source order: the identifier
guard (`!username && !email`), the password guard (`!password`), the lookup
(404 "User not found" when absent), the password check (400 "Invalid username
or password" on mismatch), `await generateTokens(...)`, the sanitized
re-fetch, then status 200 with both tokens as httpOnly/secure cookies and
`{user, accessToken, refreshToken}` in the body. -/
def loginUser (env : Env) (now : Nat) (req : LoginReq) (db : DB) :
    Except Err (Response LoginData) × DB :=
  if falsy req.username && falsy req.email then
    (.error (.api 400 "either username or email is required"), db)
  else if falsy req.password then
    (.error (.api 400 "password is required"), db)
  else match findOne req.username req.email db with
  | none => (.error (.api 404 "User not found"), db)
  | some existedUser =>
    match req.password with
    | none => (.error .jsTypeError, db)
    | some pw =>
      if existedUser.password != PasswordHash.bcrypt pw then
        (.error (.api 400 "Invalid username or password"), db)
      else
        match generateTokens env now existedUser.id db with
        | (.error e, db2) => (.error e, db2)
        | (.ok pair, db2) =>
          let loggedInUser := (findById existedUser.id db2).map sanitize
          (.ok { status := 200,
                 cookies := [{ name := "accessToken", value := some pair.accessToken, opts := stdOpts },
                             { name := "refreshToken", value := some pair.refreshToken, opts := stdOpts }],
                 clearedCookies := [],
                 body := { statusCode := 200,
                           data := { user := loggedInUser,
                                     accessToken := some pair.accessToken,
                                     refreshToken := some pair.refreshToken },
                           message := "user logged in successfully" } }, db2)

/-- Embedding of `logoutUser` (source lines 127-140): `findByIdAndUpdate(req.user._id,
{$set: {refreshToken: undefined}})` — read literally, the persisted
`refreshToken` of the record of the authenticated user becomes `undefined` — then
clear both cookies and return an empty 200 payload. -/
def logoutUser (reqUserId : Nat) (db : DB) : Response Unit × DB :=
  let db2 : DB :=
    { db with users := db.users.map (fun u =>
        if u.id == reqUserId then { u with refreshToken := none } else u) }
  ({ status := 200, cookies := [],
     clearedCookies := [("accessToken", stdOpts), ("refreshToken", stdOpts)],
     body := { statusCode := 200, data := (), message := "User logged out successfully" } },
   db2)

/-- The refresh request: the token may arrive in the cookie or in the body. -/
structure RefreshReq where
  cookieRefreshToken : Option SignedToken
  bodyRefreshToken : Option SignedToken
deriving Repr

/-- The refresh response body data.  The fields are optional because the
handler destructures `generateTokens(user._id)` without `await` (source line
155): destructuring a pending Promise yields `undefined` for both fields. -/
structure RefreshData where
  accessToken : Option SignedToken
  refreshToken : Option SignedToken
deriving DecidableEq, Repr

/-- Line 143: `req.cookies.refreshToken || req.body.refreshToken` — the
cookie token when present, otherwise the body token. -/
def incomingToken (req : RefreshReq) : Option SignedToken :=
  match req.cookieRefreshToken with
  | some t => some t
  | none => req.bodyRefreshToken

/-- Embedding of `refreshAcessToken` (source lines 142-166).  Steps in source order: take
the token from cookie or body (400 "Refresh token is required" when absent),
`jwt.verify` (the library error propagates on failure), look the user up by
the decoded id (400 "Invalid refresh token" when absent), compare the
presented token with the stored one (400 "refresh token is expired or used"
on mismatch), then call `generateTokens(user._id)` WITHOUT `await` (line
155): the rotation side effect still runs, but the destructured
`accessToken`/`refreshToken` are `undefined`, so the cookies and the body
carry `undefined` values. -/
def refreshAcessToken (env : Env) (now : Nat) (req : RefreshReq) (db : DB) :
    Except Err (Response RefreshData) × DB :=
  match incomingToken req with
  | none => (.error (.api 400 "Refresh token is required"), db)
  | some tok =>
    match jwtVerify env.refreshTokenSecret now tok with
    | .error e => (.error e, db)
    | .ok decodedId =>
      match findById decodedId db with
      | none => (.error (.api 400 "Invalid refresh token"), db)
      | some user =>
        if some tok != user.refreshToken then
          (.error (.api 400 "refresh token is expired or used"), db)
        else
          let (_, db2) := generateTokens env now user.id db
          (.ok { status := 200,
                 cookies := [{ name := "accessToken", value := none, opts := stdOpts },
                             { name := "refreshToken", value := none, opts := stdOpts }],
                 clearedCookies := [],
                 body := { statusCode := 200,
                           data := { accessToken := none, refreshToken := none },
                           message := "Access Token refreshed" } }, db2)

/-- The password-change request body. -/
structure ChangePasswordReq where
  password : Option String
  newPassword : Option String
  confirmPassword : Option String
deriving Repr

/-- Modelled from the spec: `user.isPasswordCorrect(plaintext)` — verifies the
plaintext against the stored hash. -/
def isPasswordCorrect (plain : String) (u : User) : Bool :=
  u.password == PasswordHash.bcrypt plain

/-- Embedding of `changeCurrentPassword` (source lines 168-185).  Steps in source order:
the mismatch guard (400 when new and confirm differ, before any database
access), the blank guard (`newPassword.trim()` throws on an absent value),
the user lookup, the current-password check (400 "Invalid current password"),
then assign the new password and save with `validateBeforeSave: false` (the
pre-save hook stores its hash). -/
def changeCurrentPassword (reqUserId : Nat) (req : ChangePasswordReq) (db : DB) :
    Except Err (Response Unit) × DB :=
  if req.newPassword != req.confirmPassword then
    (.error (.api 400 "New password and confirm password do not match"), db)
  else match req.newPassword with
  | none => (.error .jsTypeError, db)
  | some np =>
    if jsTrim np == "" then
      (.error (.api 400 "New password is required,cannot be empty"), db)
    else match findById reqUserId db with
    | none => (.error .jsTypeError, db)
    | some user =>
      match req.password with
      | none => (.error .jsTypeError, db)
      | some pw =>
        if !isPasswordCorrect pw user then
          (.error (.api 400 "Invalid current password"), db)
        else
          let db2 := save { user with password := .bcrypt np } db
          (.ok { status := 200, cookies := [], clearedCookies := [],
                 body := { statusCode := 200, data := (),
                           message := "Password changed successfully" } }, db2)

/-- Concrete runtime configuration used by the concrete instances below. -/
def demoEnv : Env :=
  { accessTokenSecret := "access-secret", refreshTokenSecret := "refresh-secret",
    accessTtl := 15, refreshTtl := 240,
    upload := fun p => if p == "a.png" then some "https://cdn/a.png" else none }

/-- A refresh token of user 1, signed with the demo refresh secret. -/
def avaToken : SignedToken :=
  { secret := "refresh-secret", uid := 1, expires := 240 }

/-- A concrete registered, logged-in user. -/
def ava : User :=
  { id := 1, username := "ava", email := some "a@x.com", password := .bcrypt "p1",
    fullname := some "Ava A", avatar := "https://cdn/ava.png", coverImage := "",
    refreshToken := some avaToken }

/-- A second concrete user, not logged in. -/
def bob : User :=
  { id := 2, username := "bob", email := some "b@x.com", password := .bcrypt "p2",
    fullname := some "Bob B", avatar := "https://cdn/bob.png", coverImage := "",
    refreshToken := none }

/-- A database holding only `ava`. -/
def dbOne : DB := { users := [ava], nextId := 2 }

/-- A database holding `ava` and `bob`. -/
def dbTwo : DB := { users := [ava, bob], nextId := 3 }

/-- The empty database. -/
def dbEmpty : DB := { users := [], nextId := 1 }

/-- A token signed with the wrong secret: signature verification fails. -/
def badToken : SignedToken := { secret := "wrong-secret", uid := 1, expires := 240 }

/-- A valid token of a user id that has no record. -/
def ghostToken : SignedToken := { secret := "refresh-secret", uid := 99, expires := 240 }

/-- The HTTP status of a thrown ApiError, when the outcome is one. -/
def errStatus {α : Type} : Except Err α → Option Nat
  | .error (.api s _) => some s
  | _ => none

/-- The message of a thrown ApiError, when the outcome is one. -/
def errMessage {α : Type} : Except Err α → Option String
  | .error (.api _ m) => some m
  | _ => none

/-- After replacing the record carrying a given id, `find?`-by-id returns the
replacement, provided some record with that id was present. -/
theorem find_map_replace (uid : Nat) (u2 : User) (h : u2.id = uid) :
    ∀ l : List User, (l.find? (fun u => u.id == uid)).isSome = true →
      (l.map (fun v => if v.id == u2.id then u2 else v)).find? (fun u => u.id == uid)
        = some u2 := by
  intro l
  induction l with
  | nil => simp
  | cons x xs ih =>
    intro hs
    by_cases hx : x.id = uid
    · have h1 : (if x.id == u2.id then u2 else x) = u2 := by simp [hx, h]
      rw [List.map_cons, h1, List.find?_cons_of_pos _ (by simp [h])]
    · have h1 : (if x.id == u2.id then u2 else x) = x := by simp [h, hx]
      rw [List.find?_cons_of_neg _ (by simp [hx])] at hs
      rw [List.map_cons, h1, List.find?_cons_of_neg _ (by simp [hx])]
      exact ih hs

/-- Reading `findById` after `save`: the saved record is found, provided some record
with its id was present. -/
theorem findById_save (uid : Nat) (u2 : User) (db : DB) (h : u2.id = uid)
    (hs : (findById uid db).isSome = true) :
    findById uid (save u2 db) = some u2 :=
  find_map_replace uid u2 h db.users hs

/-- Clearing the refresh token of every record with a given id commutes with
`find?`-by-id. -/
theorem find_map_clear (uid : Nat) :
    ∀ l : List User,
      (l.map (fun u => if u.id == uid then { u with refreshToken := none } else u)).find?
          (fun u => u.id == uid)
        = (l.find? (fun u => u.id == uid)).map (fun u => { u with refreshToken := none }) := by
  intro l
  induction l with
  | nil => simp
  | cons x xs ih =>
    by_cases hx : x.id = uid
    · rw [List.map_cons, if_pos (show ((x.id : Nat) == uid) = true by simp [hx]),
        List.find?_cons_of_pos _ (by simp [hx]),
        List.find?_cons_of_pos _ (by simp [hx])]
      simp
    · rw [List.map_cons, if_neg (show ¬ ((x.id : Nat) == uid) = true by simp [hx]),
        List.find?_cons_of_neg _ (by simp [hx]),
        List.find?_cons_of_neg _ (by simp [hx]), ih]

/-- Reading `findById` on the state logout leaves behind: the record of the
logged-out user, with its refresh token cleared. -/
theorem findById_logout (uid : Nat) (db : DB) :
    findById uid (logoutUser uid db).2
      = (findById uid db).map (fun u => { u with refreshToken := none }) :=
  find_map_clear uid db.users

/-- Searching over an append whose first part has no match. -/
theorem find_append_of_none (p : User → Bool) :
    ∀ l1 l2 : List User, l1.find? p = none → (l1 ++ l2).find? p = l2.find? p := by
  intro l1 l2
  induction l1 with
  | nil => simp
  | cons x xs ih =>
    intro h
    by_cases hx : p x = true
    · rw [List.find?_cons_of_pos _ hx] at h
      exact absurd h (by simp)
    · rw [List.find?_cons_of_neg _ hx] at h
      rw [List.cons_append, List.find?_cons_of_neg _ hx]
      exact ih h

/-- Unfolding `generateTokens` when the user is absent: every failure inside
the try block surfaces as the catch-all 500. -/
theorem generateTokens_absent (env : Env) (now : Nat) (userId : Nat) (db : DB)
    (h : findById userId db = none) :
    generateTokens env now userId db
      = (.error (.api 500 "something went wrong while generating tokens"), db) := by
  unfold generateTokens
  rw [h]

/-- Unfolding `generateTokens` when the user is found: both tokens are
minted and the refresh token is persisted. -/
theorem generateTokens_found (env : Env) (now : Nat) (userId : Nat) (db : DB) (u : User)
    (h : findById userId db = some u) :
    generateTokens env now userId db
      = (.ok { accessToken := mkAccessToken env now u,
               refreshToken := mkRefreshToken env now u },
         save { u with refreshToken := some (mkRefreshToken env now u) } db) := by
  unfold generateTokens
  rw [h]

/-- A record returned by `findById` carries the id it was looked up by. -/
theorem findById_id (uid : Nat) (db : DB) (u : User) (h : findById uid db = some u) :
    u.id = uid := by
  unfold findById at h
  have h2 := List.find?_some h
  simpa using h2

/-- C4: for every register request in which a required text field is present
but blank after trimming, registration is rejected with ValidationError
(400 "All fields are required") and the state is returned unchanged — the
rejection happens for every database and every upload collaborator, so it
precedes the duplicate check, the uploads and the user creation. -/
theorem register_blank_field_rejected (env : Env) (req : RegisterReq) (db : DB)
    (h : presentAndBlank req.username = true ∨ presentAndBlank req.email = true ∨
         presentAndBlank req.password = true ∨ presentAndBlank req.fullname = true) :
    registerUser env req db = (.error (.api 400 "All fields are required"), db) := by
  have hany : ([req.username, req.email, req.password, req.fullname].any presentAndBlank) = true := by
    rcases h with h | h | h | h <;> simp [h]
  simp [registerUser, hany]

/-- Witness for C4: a register request whose username is a single blank is
rejected with 400 "All fields are required", even on a database that already
holds a conflicting user. -/
theorem register_blank_field_rejected_witness :
    presentAndBlank (some " ") = true ∧
    registerUser demoEnv
        { username := some " ", email := some "b@x.com", password := some "pw",
          fullname := some "Bob", files := none } dbTwo
      = (.error (.api 400 "All fields are required"), dbTwo) :=
  ⟨by decide,
   register_blank_field_rejected demoEnv
     { username := some " ", email := some "b@x.com", password := some "pw",
       fullname := some "Bob", files := none } dbTwo (Or.inl (by decide))⟩

/-- C10: a register request whose password field is entirely absent is not
caught by the blank-field guard — `presentAndBlank` is false on an absent
field — and the request proceeds past validation: on a database already
holding the username, it reaches the duplicate check and fails there with
409 "User already exists" instead of the validation error. -/
theorem register_absent_field_passes_validation :
    presentAndBlank none = false ∧
    registerUser demoEnv
        { username := some "bob", email := some "x@y.com", password := none,
          fullname := some "Bob B", files := none } dbTwo
      = (.error (.api 409 "User already exists"), dbTwo) :=
  ⟨rfl, rfl⟩

/-- C3 counterexample: for a userId with no user record, `generateTokens`
does not fail with NotFoundError (404); it fails with the catch-all
InternalError 500 "something went wrong while generating tokens". -/
theorem generateTokens_absent_user_counterexample :
    (generateTokens demoEnv 0 5 dbEmpty).1
      = .error (.api 500 "something went wrong while generating tokens")
    ∧ errStatus (generateTokens demoEnv 0 5 dbEmpty).1 = some 500
    ∧ errStatus (generateTokens demoEnv 0 5 dbEmpty).1 ≠ some 404 :=
  ⟨rfl, rfl, by decide⟩

/-- C3 (amended): for a userId with no user record, `generateTokens` fails
with the opaque InternalError 500 (the catch-all of its try/catch), not with
NotFoundError; when the lookup succeeds it mints the access/refresh pair and
persists the refresh token onto the record (saving without validation), and
an internal failure surfaces only as that same InternalError. -/
theorem generateTokens_contract (env : Env) (now : Nat) (userId : Nat) (db : DB) :
    (findById userId db = none →
       generateTokens env now userId db
         = (.error (.api 500 "something went wrong while generating tokens"), db))
    ∧ (∀ u, findById userId db = some u →
         generateTokens env now userId db
           = (.ok { accessToken := mkAccessToken env now u,
                    refreshToken := mkRefreshToken env now u },
              save { u with refreshToken := some (mkRefreshToken env now u) } db)) :=
  ⟨fun h => generateTokens_absent env now userId db h,
   fun u h => generateTokens_found env now userId db u h⟩

/-- Witness for the amended C3: both branches at concrete inputs. -/
theorem generateTokens_contract_witness :
    (findById 5 dbEmpty = none
      ∧ generateTokens demoEnv 0 5 dbEmpty
          = (.error (.api 500 "something went wrong while generating tokens"), dbEmpty))
    ∧ (findById 1 dbOne = some ava
      ∧ generateTokens demoEnv 0 1 dbOne
          = (.ok { accessToken := mkAccessToken demoEnv 0 ava,
                   refreshToken := mkRefreshToken demoEnv 0 ava },
             save { ava with refreshToken := some (mkRefreshToken demoEnv 0 ava) } dbOne)) :=
  ⟨⟨rfl, (generateTokens_contract demoEnv 0 5 dbEmpty).1 rfl⟩,
   ⟨rfl, (generateTokens_contract demoEnv 0 1 dbOne).2 ava rfl⟩⟩

/-- C5 counterexample: on a wrong password, the error message is
"Invalid username or password" (capital I), not the claimed all-lowercase
"invalid username or password". -/
theorem login_wrong_password_message_counterexample :
    errMessage (loginUser demoEnv 0
        { username := some "ava", email := none, password := some "wrong" } dbOne).1
      = some "Invalid username or password"
    ∧ errMessage (loginUser demoEnv 0
        { username := some "ava", email := none, password := some "wrong" } dbOne).1
      ≠ some "invalid username or password" :=
  ⟨rfl, by decide⟩

/-- C5 (amended): for every login request with at least one identifier and a
password, an unmatched identifier fails with NotFoundError
(404 "User not found") while a found user with a non-verifying password
fails with AuthenticationError 400 "Invalid username or password" (capital
I); the two failure paths use different errors. -/
theorem login_failure_paths (env : Env) (now : Nat) (req : LoginReq) (db : DB)
    (hid : falsy req.username = false ∨ falsy req.email = false)
    (hpw : falsy req.password = false) :
    (findOne req.username req.email db = none →
       loginUser env now req db = (.error (.api 404 "User not found"), db))
    ∧ (∀ u pw, findOne req.username req.email db = some u → req.password = some pw →
         u.password ≠ PasswordHash.bcrypt pw →
         loginUser env now req db = (.error (.api 400 "Invalid username or password"), db))
    ∧ Err.api 404 "User not found" ≠ Err.api 400 "Invalid username or password" := by
  have hguard : (falsy req.username && falsy req.email) = false := by
    rcases hid with h | h <;> simp [h]
  refine ⟨?_, ?_, by decide⟩
  · intro h
    simp [loginUser, hguard, hpw, h]
  · intro u pw hfind hpw2 hne
    have hpwf : falsy (some pw) = false := by rw [← hpw2]; exact hpw
    simp [loginUser, hguard, hpw, hpwf, hfind, hpw2, bne_iff_ne, hne]

/-- Witness for the amended C5: both failure paths at concrete inputs. -/
theorem login_failure_paths_witness :
    (falsy (some "zoe") = false ∧ falsy (some "p1") = false
      ∧ findOne (some "zoe") none dbOne = none
      ∧ loginUser demoEnv 0 { username := some "zoe", email := none, password := some "p1" } dbOne
          = (.error (.api 404 "User not found"), dbOne))
    ∧ (findOne (some "ava") none dbOne = some ava ∧ ava.password ≠ PasswordHash.bcrypt "wrong"
      ∧ loginUser demoEnv 0 { username := some "ava", email := none, password := some "wrong" } dbOne
          = (.error (.api 400 "Invalid username or password"), dbOne)) :=
  ⟨⟨rfl, rfl, rfl,
    (login_failure_paths demoEnv 0
      { username := some "zoe", email := none, password := some "p1" } dbOne
      (Or.inl rfl) rfl).1 rfl⟩,
   ⟨rfl, by decide,
    (login_failure_paths demoEnv 0
      { username := some "ava", email := none, password := some "wrong" } dbOne
      (Or.inl rfl) rfl).2.1 ava "wrong" rfl rfl (by decide)⟩⟩

/-- C9: a refresh request with no token in cookie or body fails with
ValidationError (400 "Refresh token is required"); a presented token whose
signature/expiry verification fails makes the jsonwebtoken error propagate
(the invalid-token failure); a verified token whose decoded identity has no
user record fails with 400 "Invalid refresh token". -/
theorem refresh_rejects_missing_or_invalid_tokens (env : Env) (now : Nat)
    (req : RefreshReq) (db : DB) :
    (incomingToken req = none →
       refreshAcessToken env now req db = (.error (.api 400 "Refresh token is required"), db))
    ∧ (∀ t, incomingToken req = some t →
         jwtVerify env.refreshTokenSecret now t = .error .jwtInvalid →
         refreshAcessToken env now req db = (.error .jwtInvalid, db))
    ∧ (∀ t d, incomingToken req = some t →
         jwtVerify env.refreshTokenSecret now t = .ok d →
         findById d db = none →
         refreshAcessToken env now req db = (.error (.api 400 "Invalid refresh token"), db)) := by
  refine ⟨?_, ?_, ?_⟩
  · intro h
    unfold refreshAcessToken
    rw [h]
  · intro t h hv
    unfold refreshAcessToken
    rw [h]
    simp [hv]
  · intro t d h hv hf
    unfold refreshAcessToken
    rw [h]
    simp [hv, hf]

/-- Witness for C9: the three rejection paths at concrete inputs. -/
theorem refresh_rejects_witness :
    (incomingToken { cookieRefreshToken := none, bodyRefreshToken := none } = none
      ∧ refreshAcessToken demoEnv 0 { cookieRefreshToken := none, bodyRefreshToken := none } dbOne
          = (.error (.api 400 "Refresh token is required"), dbOne))
    ∧ (incomingToken { cookieRefreshToken := some badToken, bodyRefreshToken := none } = some badToken
      ∧ jwtVerify demoEnv.refreshTokenSecret 0 badToken = .error .jwtInvalid
      ∧ refreshAcessToken demoEnv 0 { cookieRefreshToken := some badToken, bodyRefreshToken := none } dbOne
          = (.error .jwtInvalid, dbOne))
    ∧ (incomingToken { cookieRefreshToken := some ghostToken, bodyRefreshToken := none } = some ghostToken
      ∧ jwtVerify demoEnv.refreshTokenSecret 0 ghostToken = .ok 99
      ∧ findById 99 dbOne = none
      ∧ refreshAcessToken demoEnv 0 { cookieRefreshToken := some ghostToken, bodyRefreshToken := none } dbOne
          = (.error (.api 400 "Invalid refresh token"), dbOne)) :=
  ⟨⟨rfl, (refresh_rejects_missing_or_invalid_tokens demoEnv 0
           { cookieRefreshToken := none, bodyRefreshToken := none } dbOne).1 rfl⟩,
   ⟨rfl, rfl, (refresh_rejects_missing_or_invalid_tokens demoEnv 0
           { cookieRefreshToken := some badToken, bodyRefreshToken := none } dbOne).2.1 badToken rfl rfl⟩,
   ⟨rfl, rfl, rfl, (refresh_rejects_missing_or_invalid_tokens demoEnv 0
           { cookieRefreshToken := some ghostToken, bodyRefreshToken := none } dbOne).2.2
           ghostToken 99 rfl rfl rfl⟩⟩

/-- C1: logout clears the persisted refresh token of the user, so a refresh
request presenting a refresh token of that user issued before logout (one
that still verifies) fails the stored-token mismatch check with
400 "refresh token is expired or used". -/
theorem logout_then_refresh_fails (env : Env) (now : Nat) (uid : Nat) (db : DB)
    (t : SignedToken)
    (hSecret : t.secret = env.refreshTokenSecret)
    (hExp : now < t.expires)
    (hUid : t.uid = uid)
    (hUser : (findById uid db).isSome = true) :
    refreshAcessToken env now { cookieRefreshToken := some t, bodyRefreshToken := none }
        (logoutUser uid db).2
      = (.error (.api 400 "refresh token is expired or used"), (logoutUser uid db).2) := by
  obtain ⟨u, hu⟩ := Option.isSome_iff_exists.mp hUser
  have hver : jwtVerify env.refreshTokenSecret now t = .ok t.uid := by
    simp [jwtVerify, hSecret, hExp]
  have hfind : findById t.uid (logoutUser uid db).2 = some { u with refreshToken := none } := by
    rw [hUid, findById_logout, hu]
    rfl
  unfold refreshAcessToken
  rw [show incomingToken { cookieRefreshToken := some t, bodyRefreshToken := none }
        = some t from rfl]
  simp [hver, hfind]

/-- Witness for C1: after `ava` logs out, refreshing with her previously
stored (still valid) refresh token is rejected as expired or used. -/
theorem logout_then_refresh_fails_witness :
    (avaToken.secret = demoEnv.refreshTokenSecret ∧ (0 : Nat) < avaToken.expires
      ∧ avaToken.uid = 1 ∧ (findById 1 dbOne).isSome = true)
    ∧ refreshAcessToken demoEnv 0
          { cookieRefreshToken := some avaToken, bodyRefreshToken := none }
          (logoutUser 1 dbOne).2
        = (.error (.api 400 "refresh token is expired or used"), (logoutUser 1 dbOne).2) :=
  ⟨⟨rfl, by decide, rfl, rfl⟩,
   logout_then_refresh_fails demoEnv 0 1 dbOne avaToken rfl (by decide) rfl rfl⟩

/-- C2 (code bug): a fully valid refresh request — the presented token
verifies, identifies `ava`, and matches her stored token — returns status
200, but the response body and both cookies carry no tokens (`none`, the
JavaScript `undefined`): line 155 calls `generateTokens` without `await`,
so destructuring the pending Promise yields `undefined` for both fields,
even though the fresh pair itself is minted and persisted. -/
theorem refresh_valid_returns_undefined_tokens :
    (refreshAcessToken demoEnv 0
        { cookieRefreshToken := some avaToken, bodyRefreshToken := none } dbOne).1
      = .ok { status := 200,
              cookies := [{ name := "accessToken", value := none, opts := stdOpts },
                          { name := "refreshToken", value := none, opts := stdOpts }],
              clearedCookies := [],
              body := { statusCode := 200,
                        data := { accessToken := none, refreshToken := none },
                        message := "Access Token refreshed" } }
    ∧ (generateTokens demoEnv 0 1 dbOne).1
      = .ok { accessToken := mkAccessToken demoEnv 0 ava,
              refreshToken := mkRefreshToken demoEnv 0 ava }
    ∧ some (mkAccessToken demoEnv 0 ava) ≠ (none : Option SignedToken) :=
  ⟨rfl, rfl, by decide⟩

/-- C6: a successful login returns status 200, sets both freshly minted
tokens as httpOnly/secure cookies, and the body carries the sanitized user
(structurally without password and refreshToken fields — sanitization is
insensitive to both) together with both tokens. -/
theorem login_success_response (env : Env) (now : Nat) (req : LoginReq) (db : DB)
    (u : User) (pw : String)
    (hid : falsy req.username = false ∨ falsy req.email = false)
    (hpw : req.password = some pw)
    (hpwf : falsy req.password = false)
    (hfind : findOne req.username req.email db = some u)
    (hbyid : findById u.id db = some u)
    (hmatch : u.password = PasswordHash.bcrypt pw) :
    loginUser env now req db
      = (.ok { status := 200,
               cookies := [{ name := "accessToken",
                             value := some (mkAccessToken env now u), opts := stdOpts },
                           { name := "refreshToken",
                             value := some (mkRefreshToken env now u), opts := stdOpts }],
               clearedCookies := [],
               body := { statusCode := 200,
                         data := { user := some (sanitize u),
                                   accessToken := some (mkAccessToken env now u),
                                   refreshToken := some (mkRefreshToken env now u) },
                         message := "user logged in successfully" } },
         save { u with refreshToken := some (mkRefreshToken env now u) } db)
    ∧ (∀ p r, sanitize { u with password := p, refreshToken := r } = sanitize u) := by
  constructor
  · have hguard : (falsy req.username && falsy req.email) = false := by
      rcases hid with h | h <;> simp [h]
    have hpwf2 : falsy (some pw) = false := by
      rw [← hpw]
      exact hpwf
    have hbeq : (u.password != PasswordHash.bcrypt pw) = false := by
      simp [hmatch]
    have hgen := generateTokens_found env now u.id db u hbyid
    have hsave : findById u.id (save { u with refreshToken := some (mkRefreshToken env now u) } db)
        = some { u with refreshToken := some (mkRefreshToken env now u) } := by
      apply findById_save
      · rfl
      · rw [hbyid]
        rfl
    simp [loginUser, hguard, hpwf2, hfind, hpw, hbeq, hgen, hsave, sanitize]
  · intro p r
    rfl

/-- Witness for C6: `ava` logs in with the correct password. -/
theorem login_success_response_witness :
    (falsy (some "ava") = false ∧ falsy (some "p1") = false
      ∧ findOne (some "ava") none dbOne = some ava
      ∧ findById ava.id dbOne = some ava
      ∧ ava.password = PasswordHash.bcrypt "p1")
    ∧ loginUser demoEnv 0 { username := some "ava", email := none, password := some "p1" } dbOne
        = (.ok { status := 200,
                 cookies := [{ name := "accessToken",
                               value := some (mkAccessToken demoEnv 0 ava), opts := stdOpts },
                             { name := "refreshToken",
                               value := some (mkRefreshToken demoEnv 0 ava), opts := stdOpts }],
                 clearedCookies := [],
                 body := { statusCode := 200,
                           data := { user := some (sanitize ava),
                                     accessToken := some (mkAccessToken demoEnv 0 ava),
                                     refreshToken := some (mkRefreshToken demoEnv 0 ava) },
                           message := "user logged in successfully" } },
           save { ava with refreshToken := some (mkRefreshToken demoEnv 0 ava) } dbOne) :=
  ⟨⟨rfl, rfl, rfl, rfl, rfl⟩,
   (login_success_response demoEnv 0
      { username := some "ava", email := none, password := some "p1" } dbOne ava "p1"
      (Or.inl rfl) rfl rfl rfl rfl rfl).1⟩

/-- C7: a password-change request whose new password and confirmation differ
fails with ValidationError (400 "New password and confirm password do not
match") and the database is returned unchanged — no state mutation on this
path; a request with matching new/confirm, a non-blank new password and a
correct current password succeeds, the stored record now carries the hash of
the new password, and the old password no longer verifies against it. -/
theorem changeCurrentPassword_contract (uid : Nat) (req : ChangePasswordReq) (db : DB) :
    (req.newPassword ≠ req.confirmPassword →
       changeCurrentPassword uid req db
         = (.error (.api 400 "New password and confirm password do not match"), db))
    ∧ (∀ u np pw, req.newPassword = some np → req.confirmPassword = some np →
         jsTrim np ≠ "" → findById uid db = some u →
         req.password = some pw → u.password = PasswordHash.bcrypt pw → np ≠ pw →
         changeCurrentPassword uid req db
           = (.ok { status := 200, cookies := [], clearedCookies := [],
                    body := { statusCode := 200, data := (),
                              message := "Password changed successfully" } },
              save { u with password := PasswordHash.bcrypt np } db)
         ∧ findById uid (save { u with password := PasswordHash.bcrypt np } db)
             = some { u with password := PasswordHash.bcrypt np }
         ∧ isPasswordCorrect pw { u with password := PasswordHash.bcrypt np } = false) := by
  constructor
  · intro h
    have hbne : (req.newPassword != req.confirmPassword) = true := by
      simp [bne_iff_ne, h]
    simp [changeCurrentPassword, hbne]
  · intro u np pw h1 h2 h3 h4 h5 h6 h7
    refine ⟨?_, ?_, ?_⟩
    · have hcorrect : isPasswordCorrect pw u = true := by
        simp [isPasswordCorrect, h6]
      simp [changeCurrentPassword, h1, h2, h3, h4, h5, hcorrect]
    · apply findById_save
      · exact findById_id uid db u h4
      · rw [h4]
        rfl
    · simp only [isPasswordCorrect]
      simpa using h7

/-- Witness for C7: both branches, on `ava` with current password "p1". -/
theorem changeCurrentPassword_contract_witness :
    ((some "q2" : Option String) ≠ some "r3"
      ∧ changeCurrentPassword 1
          { password := some "p1", newPassword := some "q2", confirmPassword := some "r3" } dbOne
          = (.error (.api 400 "New password and confirm password do not match"), dbOne))
    ∧ (jsTrim "q2" ≠ "" ∧ findById 1 dbOne = some ava
      ∧ ava.password = PasswordHash.bcrypt "p1" ∧ "q2" ≠ "p1"
      ∧ (changeCurrentPassword 1
           { password := some "p1", newPassword := some "q2", confirmPassword := some "q2" } dbOne
           = (.ok { status := 200, cookies := [], clearedCookies := [],
                    body := { statusCode := 200, data := (),
                              message := "Password changed successfully" } },
              save { ava with password := PasswordHash.bcrypt "q2" } dbOne)
         ∧ findById 1 (save { ava with password := PasswordHash.bcrypt "q2" } dbOne)
             = some { ava with password := PasswordHash.bcrypt "q2" }
         ∧ isPasswordCorrect "p1" { ava with password := PasswordHash.bcrypt "q2" } = false)) :=
  ⟨⟨by decide,
    (changeCurrentPassword_contract 1
      { password := some "p1", newPassword := some "q2", confirmPassword := some "r3" } dbOne).1
      (by decide)⟩,
   ⟨by decide, rfl, rfl, by decide,
    (changeCurrentPassword_contract 1
      { password := some "p1", newPassword := some "q2", confirmPassword := some "q2" } dbOne).2
      ava "q2" "p1" rfl rfl (by decide) rfl rfl rfl (by decide)⟩⟩

/-- C8: during registration (fields passing validation, no duplicate, avatar
path supplied), if the avatar upload yields no URL the operation fails with
UploadError (500 "Failed to upload avatar"); if the avatar upload succeeds
but the cover-image upload yields no URL, the user record is still created,
with coverImage stored as the empty string. -/
theorem register_upload_contract (env : Env) (req : RegisterReq) (db : DB) (ap : String)
    (hblank : [req.username, req.email, req.password, req.fullname].any presentAndBlank = false)
    (hdup : findOne req.username req.email db = none)
    (hpath : avatarLocalPath req = some ap) :
    (env.upload ap = none →
       registerUser env req db = (.error (.api 500 "Failed to upload avatar"), db))
    ∧ (∀ url un pw, env.upload ap = some url →
         uploadOnCloudinary env (coverImageLocalPath req) = none →
         req.username = some un → req.password = some pw →
         findById db.nextId db = none →
         registerUser env req db
           = (.ok { status := 201, cookies := [], clearedCookies := [],
                    body := { statusCode := 200,
                              data := { id := db.nextId, username := jsToLower un,
                                        email := req.email, fullname := req.fullname,
                                        avatar := url, coverImage := "" },
                              message := "User created successfully" } },
              { users := db.users ++
                  [{ id := db.nextId, username := jsToLower un, email := req.email,
                     password := PasswordHash.bcrypt pw, fullname := req.fullname,
                     avatar := url, coverImage := "", refreshToken := none }],
                nextId := db.nextId + 1 })) := by
  constructor
  · intro hup
    simp [registerUser, hblank, hdup, hpath, uploadOnCloudinary, hup]
  · intro url un pw hup hcov hun hpw hfresh
    have hfresh2 : db.users.find? (fun v => v.id == db.nextId) = none := hfresh
    have hava : uploadOnCloudinary env (some ap) = some url := by
      simpa [uploadOnCloudinary] using hup
    have hblank2 : ([some un, req.email, some pw, req.fullname].any presentAndBlank) = false := by
      rw [← hun, ← hpw]
      exact hblank
    have hdup2 : findOne (some un) req.email db = none := by
      rw [← hun]
      exact hdup
    simp [registerUser, hblank2, hdup2, hpath, hava, hcov, hun, hpw, findById, hfresh2, sanitize]

/-- Witness for C8: with the demo collaborator (which only uploads "a.png"),
a register attempt whose avatar path is "bad.png" fails with 500, while one
whose avatar is "a.png" and whose cover image is "c.png" (upload fails)
creates the user with an empty coverImage. -/
theorem register_upload_contract_witness :
    ((demoEnv.upload "bad.png" = none
      ∧ registerUser demoEnv
          { username := some "dan", email := some "d@x.com", password := some "p4",
            fullname := some "Dan D",
            files := some { avatar := [{ path := some "bad.png" }], coverImage := [] } } dbEmpty
        = (.error (.api 500 "Failed to upload avatar"), dbEmpty)))
    ∧ (demoEnv.upload "a.png" = some "https://cdn/a.png"
      ∧ uploadOnCloudinary demoEnv (some "c.png") = none
      ∧ registerUser demoEnv
          { username := some "Carl", email := some "c@x.com", password := some "p3",
            fullname := some "Carl C",
            files := some { avatar := [{ path := some "a.png" }],
                            coverImage := [{ path := some "c.png" }] } } dbEmpty
        = (.ok { status := 201, cookies := [], clearedCookies := [],
                 body := { statusCode := 200,
                           data := { id := 1, username := jsToLower "Carl",
                                     email := some "c@x.com", fullname := some "Carl C",
                                     avatar := "https://cdn/a.png", coverImage := "" },
                           message := "User created successfully" } },
           { users := [{ id := 1, username := jsToLower "Carl", email := some "c@x.com",
                         password := PasswordHash.bcrypt "p3", fullname := some "Carl C",
                         avatar := "https://cdn/a.png", coverImage := "",
                         refreshToken := none }],
             nextId := 2 })) :=
  ⟨⟨rfl,
    (register_upload_contract demoEnv
      { username := some "dan", email := some "d@x.com", password := some "p4",
        fullname := some "Dan D",
        files := some { avatar := [{ path := some "bad.png" }], coverImage := [] } }
      dbEmpty "bad.png" (by decide) rfl rfl).1 rfl⟩,
   ⟨rfl, rfl,
    (register_upload_contract demoEnv
      { username := some "Carl", email := some "c@x.com", password := some "p3",
        fullname := some "Carl C",
        files := some { avatar := [{ path := some "a.png" }],
                        coverImage := [{ path := some "c.png" }] } }
      dbEmpty "a.png" (by decide) rfl rfl).2 "https://cdn/a.png" "Carl" "p3" rfl rfl rfl rfl rfl⟩⟩
